import Mathlib

/-!
Verification development for the ReflectanceFusion training script
(`train_vae3.py`).  The definitions below are shallow embeddings of the
script's data handling, loss composition, decoder forward policy,
decoder surgery and checkpoint-resume logic; theorems settle the spec's
claims about them.
-/

namespace ReflectanceFusion

/-! ## Python string primitives

The resume logic of `main` (train_vae3.py lines 691-716) manipulates
Python strings via `os.path.basename`, `os.path.join`, `str.split`,
`str.startswith`, `int(...)` and `sorted(..., key=...)`.  We model
Python `str` as Lean `String` and implement those operations by
recursion on the character list. -/

/-- Python `s.split(sep)` for a single-character separator: Python semantics,
splitting at every occurrence; `"".split(sep) == [""]`. -/
def pySplitAux (sep : Char) : List Char → List Char → List String
  | [], acc => [String.mk acc.reverse]
  | c :: cs, acc =>
      if c = sep then String.mk acc.reverse :: pySplitAux sep cs []
      else pySplitAux sep cs (c :: acc)

/-- Python `s.split(sep)` (single-character separator). -/
def pySplit (sep : Char) (s : String) : List String :=
  pySplitAux sep s.data []

/-- Python `s.startswith(pre)`. -/
def pyStartsWith (pre s : String) : Bool :=
  pre.data.isPrefixOf s.data

/-- Python `os.path.basename` on a POSIX path: the part after the last slash. -/
def pyBasename (p : String) : String :=
  (pySplit '/' p).getLastD ""

/-- Python `os.path.join a b` (POSIX, two arguments): `b` if `b` is absolute,
else `a ++ b` when `a` is empty or ends in a slash, else `a ++ "/" ++ b`. -/
def pyJoin (a b : String) : String :=
  if pyStartsWith "/" b then b
  else if a = "" then b
  else if a.data.getLastD ' ' = '/' then a ++ b
  else a ++ "/" ++ b

/-- Python `int(s)` restricted to nonempty all-digit strings; other
inputs (where `int` would raise `ValueError`) give `none`. -/
def pyToNat (s : String) : Option ℕ :=
  if s.data = [] then none
  else if s.data.all Char.isDigit then
    some (s.data.foldl (fun n c => 10 * n + (c.toNat - 48)) 0)
  else none

/-! ## Checkpoint-resume resolution (train_vae3.py lines 688-716) -/

/-- The sorting key `lambda x: int(x.split("-")[1])` used on checkpoint
directory names, as an `Option` (Python raises when the name does not
parse). -/
def stepKeyOpt (s : String) : Option ℕ :=
  match (pySplit '-' s).get? 1 with
  | none => none
  | some t => pyToNat t

/-- Totalized sorting key; the claims only concern listings whose
`checkpoint`-prefixed entries all parse, where this agrees with Python's
`int(x.split("-")[1])`. -/
def stepKey (s : String) : ℕ :=
  (stepKeyOpt s).getD 0

/-- Key order used by `sorted(dirs, key=lambda x: int(x.split("-")[1]))`. -/
def stepKeyLe (a b : String) : Prop :=
  stepKey a ≤ stepKey b

instance : DecidableRel stepKeyLe := fun a b => by
  unfold stepKeyLe; infer_instance

/-- Python's `sorted` with the step key: stable ascending sort, which the
(stable) insertion sort reproduces element-for-element. -/
def sortByStepKey (l : List String) : List String :=
  List.insertionSort stepKeyLe l

/-- The `path` value as computed by lines 692-699 of `main`: for an explicit
checkpoint argument the basename of the argument; for `"latest"` the
last element of the step-sorted `checkpoint*` entries of the output
directory listing, or `none` when there are no such entries. -/
def resolvePath (resume : String) (listing : List String) : Option String :=
  if resume ≠ "latest" then some (pyBasename resume)
  else
    let dirs := listing.filter (fun d => pyStartsWith "checkpoint" d)
    let dirs := sortByStepKey dirs
    dirs.getLast?

/-- What the resume block decides to do. -/
inductive ResumeAction where
  /-- `args.resume_from_checkpoint` was falsy: no resume requested. -/
  | noResume : ResumeAction
  /-- `path is None`: print the warning and start a new training run. -/
  | warnFresh : ResumeAction
  /-- `accelerator.load_state(os.path.join(args.output_dir, path))`. -/
  | load (loadPath : String) : ResumeAction
deriving DecidableEq

/-- The action taken by lines 691-716 of `main`.  Note Python's
truthiness: an empty `--resume_from_checkpoint` is falsy. -/
def resumeAction (resume : Option String) (output_dir : String)
    (listing : List String) : ResumeAction :=
  match resume with
  | none => .noResume
  | some r =>
      if r = "" then .noResume
      else
        match resolvePath r listing with
        | none => .warnFresh
        | some p => .load (pyJoin output_dir p)

/-- The `global_step` value after the resume block: `int(path.split("-")[1])` when
a checkpoint is loaded, `0` otherwise (totalized with `stepKey`). -/
def resumedGlobalStep (resume : Option String) (listing : List String) : ℕ :=
  match resume with
  | none => 0
  | some r =>
      if r = "" then 0
      else
        match resolvePath r listing with
        | none => 0
        | some p => stepKey p

/-- The value `first_epoch = global_step // num_update_steps_per_epoch` after the
resume block (line 713), `0` when no checkpoint was loaded. -/
def resumedFirstEpoch (resume : Option String) (listing : List String)
    (num_update_steps_per_epoch : ℕ) : ℕ :=
  resumedGlobalStep resume listing / num_update_steps_per_epoch

/-! ## Tensors and the TargetStack construction
(train_vae3.py lines 730-749)

The training loop builds the target by
`images = torch.chunk(datafile, 5, dim=3)` followed by
`torch.cat([img.squeeze(0) for img in images[1:]], dim=0).unsqueeze(0)`.
`squeeze(0)` changes the rank only when dimension 0 has size one, so the
embedding uses a rank-polymorphic tensor: nested lists of rationals. -/

/-- A PyTorch tensor: either a 0-dimensional scalar or a list of
sub-tensors along the leading dimension. -/
inductive Tensor where
  | scalar : ℚ → Tensor
  | dims : List Tensor → Tensor

/-- The shape of a tensor, reading off nested lengths (ragged tensors do
not arise from the operations modelled here). -/
def tshape : Tensor → List ℕ
  | .scalar _ => []
  | .dims [] => [0]
  | .dims (t :: ts) => (ts.length + 1) :: tshape t

/-- The sub-tensors along dimension 0 (`[]` for a scalar, which has no
dimension 0). -/
def tchildren : Tensor → List Tensor
  | .scalar _ => []
  | .dims ts => ts

/-- The `torch.chunk` chunk size: `ceil(total / n)`. -/
def chunkSize (total n : ℕ) : ℕ := (total + n - 1) / n

/-- Split a list into consecutive pieces of length `k` (last piece may be
shorter); `c` counts the remaining capacity of the current piece. -/
def splitEveryAux (k : ℕ) : List α → List α → ℕ → List (List α)
  | [], acc, _ => if acc.isEmpty then [] else [acc.reverse]
  | x :: xs, acc, 0 => acc.reverse :: splitEveryAux k xs [x] (k - 1)
  | x :: xs, acc, c + 1 => splitEveryAux k xs (x :: acc) c

/-- Split a list into consecutive pieces of length `k`. -/
def splitEvery (k : ℕ) (l : List α) : List (List α) :=
  if k = 0 then [] else splitEveryAux k l [] k

/-- Rebuild the chunk list one level down: the `i`-th chunk of a tensor
is assembled from the `i`-th chunk of every sub-tensor. -/
def regroupChunks (cs : List (List Tensor)) : List Tensor :=
  (List.range (cs.headD []).length).map
    (fun i => Tensor.dims (cs.map (fun c => c.getD i (Tensor.dims []))))

/-- Model of `torch.chunk(t, n, dim=d)`: split dimension `d` into `n` chunks of
size `ceil(size_d / n)` (fewer chunks when the size does not fill them). -/
def chunkDim (n : ℕ) : ℕ → Tensor → List Tensor
  | 0, .scalar v => [.scalar v]
  | 0, .dims ts => (splitEvery (chunkSize ts.length n) ts).map Tensor.dims
  | _ + 1, .scalar v => [.scalar v]
  | d + 1, .dims ts => regroupChunks (ts.map (chunkDim n d))

/-- Model of `t.squeeze(0)`: drop dimension 0 exactly when its size is one. -/
def squeeze0 : Tensor → Tensor
  | .dims [t] => t
  | t => t

/-- Model of `torch.cat(ts, dim=0)`: concatenate along the existing leading
dimension. -/
def cat0 (ts : List Tensor) : Tensor :=
  .dims (ts.map tchildren).flatten

/-- Model of `t.unsqueeze(0)`: insert a leading dimension of size one. -/
def unsqueeze0 (t : Tensor) : Tensor := .dims [t]

/-- The target construction of the training loop (lines 742-746):
`images = torch.chunk(datafile, 5, dim=3)`;
`target = torch.cat([img.squeeze(0) for img in images[1:]], dim=0)`;
`target = target.unsqueeze(0)`. -/
def targetOf (datafile : Tensor) : Tensor :=
  let images := chunkDim 5 3 datafile
  unsqueeze0 (cat0 ((images.drop 1).map squeeze0))

/-- A constant tensor of the given shape. -/
def constT : List ℕ → ℚ → Tensor
  | [], v => .scalar v
  | n :: rest, v => .dims (List.replicate n (constT rest v))

/-- A height-1, width-5 channel plane with the five given pixel values:
tile positions are readable off the values. -/
def chanPlane5 (v0 v1 v2 v3 v4 : ℚ) : Tensor :=
  .dims [.dims [.scalar v0, .scalar v1, .scalar v2, .scalar v3, .scalar v4]]

/-- A batch of shape `[1, 3, 1, 5]` (one wide image of five 1×1 tiles,
3 channels) with channel `c`, width `w` holding the value `10*c + w`. -/
def batchOne : Tensor :=
  .dims [.dims [chanPlane5 0 1 2 3 4,
                chanPlane5 10 11 12 13 14,
                chanPlane5 20 21 22 23 24]]

/-- A 1×1 channel plane holding a single value. -/
def pixel (v : ℚ) : Tensor := .dims [.dims [.scalar v]]

/-- The 12-channel target the claim predicts for `batchOne`: channel
group `[3*k : 3*k+3]` is tile `k+1` (the `k+2`-nd tile of the wide
image), channels in source order. -/
def expectedTargetOne : Tensor :=
  .dims [.dims [pixel 1, pixel 11, pixel 21,
                pixel 2, pixel 12, pixel 22,
                pixel 3, pixel 13, pixel 23,
                pixel 4, pixel 14, pixel 24]]

/-! ## Loss compositor (train_vae3.py lines 288-300 and 756-775)

A (single) 12-channel image is a list of channel planes.  The learned
perceptual metric (`lpips.LPIPS`, an external library, including its
final `.mean()`) and the scalar produced by `posterior.kl().mean()`
(computed by the diffusers library from the encoder posterior) enter as
parameters. -/

/-- An image: channels, each a height-indexed list of width-indexed rows
of rationals. -/
def Image : Type := List (List (List ℚ))

/-- All element values of an image, flattened. -/
def flattenImage (img : Image) : List ℚ :=
  (img.map List.flatten).flatten

/-- Model of `F.mse_loss(pred, target, reduction="mean")`: mean of elementwise
squared differences. -/
def mse_loss (pred target : Image) : ℚ :=
  (List.zipWith (fun a b => (a - b) ^ 2) (flattenImage pred)
      (flattenImage target)).sum / (flattenImage pred).length

/-- The channel slice `x[:, 3*i : 3*(i+1)]` of a 12-channel image. -/
def channelGroup (img : Image) (i : ℕ) : Image :=
  (img.drop (3 * i)).take 3

/-- The accumulation loop of lines 758-770: for `i in range(4)`, add
`lpips_loss_fn(pred[:, 3i:3i+3], target[:, 3i:3i+3]).mean()`. -/
def total_lpips_loss (lp : Image → Image → ℚ) (pred target : Image) : ℚ :=
  (List.range 4).foldl
    (fun acc i => acc + lp (channelGroup pred i) (channelGroup target i)) 0

/-- Line 771: `lpips_loss = total_lpips_loss / 4`. -/
def lpips_loss (lp : Image → Image → ℚ) (pred target : Image) : ℚ :=
  total_lpips_loss lp pred target / 4

/-- Lines 773-775: `loss = mse_loss + args.lpips_scale * lpips_loss +
args.kl_scale * kl_loss`. -/
def train_step_loss (lp : Image → Image → ℚ) (pred target : Image)
    (kl_loss lpips_scale kl_scale : ℚ) : ℚ :=
  mse_loss pred target + lpips_scale * lpips_loss lp pred target
    + kl_scale * kl_loss

/-- The `--lpips_scale` default `1e-1` (parse_args, line 298). -/
def lpips_scale_default : ℚ := 1 / 10

/-- The `--kl_scale` default `1e-6` (parse_args, line 292). -/
def kl_scale_default : ℚ := 1 / 1000000

/-! ## Decoder forward policy (train_vae3.py lines 404-507)

The replaced `Decoder.forward` applies a fixed stage sequence; under
`self.training and self.gradient_checkpointing` the first part runs
through `torch.utils.checkpoint.checkpoint` (whose forward value equals
a plain call — only the backward recomputes).  Stages are abstract
functions on an abstract activation type; each application is recorded
in a trace together with how it was invoked. -/

/-- The structural parts of the post-surgery decoder used by
`new_forward`. -/
structure DecoderFuns (α : Type) where
  conv_in : α → α
  mid_block : α → α
  copied_mid_block1 : α → α
  copied_mid_block2 : α → α
  copied_mid_block3 : α → α
  copied_mid_block4 : α → α
  up_blocks : List (α → α)
  /-- `sample.to(upscale_dtype)`. -/
  castUpscale : α → α
  conv_norm_out : α → α
  conv_act : α → α
  conv_out : α → α

/-- Model of `create_custom_forward(module)` (lines 416-420): a wrapper calling
the module on its inputs. -/
def create_custom_forward {α : Type} (f : α → α) : α → α := f

/-- Forward semantics of `torch.utils.checkpoint.checkpoint(f, x, ...)`:
the forward value is `f x`; the recompute concerns only the backward
pass. -/
def checkpointCall {α : Type} (f : α → α) (x : α) : α :=
  create_custom_forward f x

/-- Identity of a stage in the decode sequence. -/
inductive StageTag where
  | convIn | midBlock | copied1 | copied2 | castUp
  | upBlock (i : ℕ)
  | copied3 | copied4 | convNormOut | convAct | convOut
deriving DecidableEq

/-- How a stage was invoked. -/
inductive RunMode where
  /-- wrapped in `torch.utils.checkpoint.checkpoint` (recompute on
  backward). -/
  | checkpointed
  /-- called directly (activations retained). -/
  | direct
deriving DecidableEq

/-- Apply one stage to the running (value, trace) pair, recording the
invocation. -/
def runStage {α : Type} (f : α → α) (tag : StageTag) (mode : RunMode)
    (st : α × List (StageTag × RunMode)) : α × List (StageTag × RunMode) :=
  (match mode with
   | .checkpointed => checkpointCall f st.1
   | .direct => f st.1,
   st.2 ++ [(tag, mode)])

/-- The `for up_block in self.up_blocks` loop, each block invoked with
the given mode. -/
def runUpBlocks {α : Type} (ups : List (α → α)) (mode : RunMode)
    (st : α × List (StageTag × RunMode)) : α × List (StageTag × RunMode) :=
  ups.enum.foldl (fun st p => runStage p.2 (.upBlock p.1) mode st) st

/-- The post-process tail (lines 498-504): `conv_norm_out` (the
`latent_embeds` test selects the same module either way), `conv_act`,
`conv_out`. -/
def postProcess {α : Type} (d : DecoderFuns α)
    (st : α × List (StageTag × RunMode)) : α × List (StageTag × RunMode) :=
  runStage d.conv_out .convOut .direct
    (runStage d.conv_act .convAct .direct
      (runStage d.conv_norm_out .convNormOut .direct st))

/-- The replaced `Decoder.forward` (lines 404-506), under the live
`is_torch_version` branch (the source hardcodes `if True:`; the other
branch is unreachable).  In the checkpointing branch `mid_block` and the
first two clones and every up block go through
`torch.utils.checkpoint.checkpoint`, while `copied_mid_block3` and
`copied_mid_block4` (lines 456-458) are called directly. -/
def new_forward {α : Type} (d : DecoderFuns α)
    (training gradient_checkpointing : Bool) (sample : α) :
    α × List (StageTag × RunMode) :=
  let st := runStage d.conv_in .convIn .direct (sample, [])
  if training && gradient_checkpointing then
    postProcess d
      (runStage d.castUpscale .castUp .direct
        (runStage d.copied_mid_block4 .copied4 .direct
          (runStage d.copied_mid_block3 .copied3 .direct
            (runUpBlocks d.up_blocks .checkpointed
              (runStage d.castUpscale .castUp .direct
                (runStage d.copied_mid_block2 .copied2 .checkpointed
                  (runStage d.copied_mid_block1 .copied1 .checkpointed
                    (runStage d.mid_block .midBlock .checkpointed st))))))))
  else
    postProcess d
      (runStage d.castUpscale .castUp .direct
        (runStage d.copied_mid_block4 .copied4 .direct
          (runStage d.copied_mid_block3 .copied3 .direct
            (runUpBlocks d.up_blocks .direct
              (runStage d.castUpscale .castUp .direct
                (runStage d.copied_mid_block2 .copied2 .direct
                  (runStage d.copied_mid_block1 .copied1 .direct
                    (runStage d.mid_block .midBlock .direct st))))))))

/-- The stage sequence the spec prescribes for every decode call. -/
def specStageOrder (numUpBlocks : ℕ) : List StageTag :=
  [.convIn, .midBlock, .copied1, .copied2, .castUp]
    ++ (List.range numUpBlocks).map StageTag.upBlock
    ++ [.copied3, .copied4, .castUp, .convNormOut, .convAct, .convOut]

/-- A decoder over `ℕ` with identity stages and one up block, used to
evaluate traces concretely. -/
def trivialDecoder : DecoderFuns ℕ :=
  { conv_in := id, mid_block := id, copied_mid_block1 := id,
    copied_mid_block2 := id, copied_mid_block3 := id,
    copied_mid_block4 := id, up_blocks := [id], castUpscale := id,
    conv_norm_out := id, conv_act := id, conv_out := id }

/-! ## Decoder surgery (train_vae3.py lines 350-396 and 510-516)

Layers carry their constructor configuration and a representative
parameter value per tensor; `copy.deepcopy` copies values into
independent storage, and the freshly constructed replacement layers of
clones 3 and 4 carry the library's initialization (for `nn.GroupNorm`
with `affine=True` that is deterministically weight 1, bias 0; for
`nn.Conv2d` it is a random draw, passed in as a parameter). -/

/-- An `nn.GroupNorm` layer. -/
structure GroupNormLayer where
  num_groups : ℕ
  num_channels : ℕ
  eps : ℚ
  weight : ℚ
  bias : ℚ
deriving DecidableEq

/-- Model of `nn.GroupNorm(g, c, eps=e, affine=True)`: default initialization is
weight = 1, bias = 0. -/
def nnGroupNorm (g c : ℕ) (e : ℚ) : GroupNormLayer :=
  ⟨g, c, e, 1, 0⟩

/-- An `nn.Conv2d` layer. -/
structure Conv2dLayer where
  in_channels : ℕ
  out_channels : ℕ
  kernel_size : ℕ × ℕ
  stride : ℕ × ℕ
  padding : ℕ × ℕ
  weight : ℚ
  bias : ℚ
deriving DecidableEq

/-- Model of `nn.Conv2d(cin, cout, kernel_size=k, stride=s, padding=p)` with the
random default-initialization draw `(w, b)` supplied. -/
def nnConv2d (cin cout : ℕ) (k s p : ℕ × ℕ) (w b : ℚ) : Conv2dLayer :=
  ⟨cin, cout, k, s, p, w, b⟩

/-- A `ResnetBlock2D` of the VAE mid block (its parameterized layers). -/
structure ResnetBlock where
  norm1 : GroupNormLayer
  conv1 : Conv2dLayer
  norm2 : GroupNormLayer
  conv2 : Conv2dLayer
deriving DecidableEq

/-- An attention block of the mid block (representative parameters). -/
structure AttentionBlock where
  params : ℚ
deriving DecidableEq

/-- The decoder's `mid_block`: resnets plus attentions. -/
structure MidBlock where
  resnets : List ResnetBlock
  attentions : List AttentionBlock
deriving DecidableEq

/-- Model of `copy.deepcopy` of a module: same parameter values in independent
storage. -/
def deepcopy (m : MidBlock) : MidBlock := m

/-- Fresh conv-weight draws for one resnet: (conv1 weight, conv1 bias,
conv2 weight, conv2 bias). -/
def ConvDraws : Type := ℚ × ℚ × ℚ × ℚ

/-- Lines 383-392 applied to one resnet of a narrowed clone: replace
`norm1`, `conv1`, `norm2`, `conv2` with `nn.GroupNorm(32, numc,
eps=1e-06, affine=True)` and `nn.Conv2d(numc, numc, kernel_size=(3, 3),
stride=(1, 1), padding=(1, 1))`. -/
def renormResnet (numc : ℕ) (dr : ConvDraws) (_rb : ResnetBlock) :
    ResnetBlock :=
  { norm1 := nnGroupNorm 32 numc (1 / 1000000)
    conv1 := nnConv2d numc numc (3, 3) (1, 1) (1, 1) dr.1 dr.2.1
    norm2 := nnGroupNorm 32 numc (1 / 1000000)
    conv2 := nnConv2d numc numc (3, 3) (1, 1) (1, 1) dr.2.2.1 dr.2.2.2 }

/-- Line 373: `numc = 128`: the channel width of the decoder's last
upsampling stage. -/
def numc : ℕ := 128

/-- The four clones as installed on the decoder. -/
structure SurgeryResult where
  copied_mid_block1 : MidBlock
  copied_mid_block2 : MidBlock
  copied_mid_block3 : MidBlock
  copied_mid_block4 : MidBlock
deriving DecidableEq

/-- Lines 356-396: four `deepcopy`s of `vae.decoder.mid_block`; the
resnets of the third and fourth get replaced norm/conv layers (fresh
draws indexed per resnet position), and their attentions are cleared
(`nn.ModuleList()`). -/
def decoderSurgery (mid_block : MidBlock) (draws3 draws4 : ℕ → ConvDraws) :
    SurgeryResult :=
  let c1 := deepcopy mid_block
  let c2 := deepcopy mid_block
  let c3 := deepcopy mid_block
  let c4 := deepcopy mid_block
  let c3 := { c3 with
    resnets := c3.resnets.enum.map (fun p => renormResnet numc (draws3 p.1) p.2)
    attentions := [] }
  let c4 := { c4 with
    resnets := c4.resnets.enum.map (fun p => renormResnet numc (draws4 p.1) p.2)
    attentions := [] }
  ⟨c1, c2, c3, c4⟩

/-- A concrete trained mid block: parameter values differ from any fresh
initialization (GroupNorm weight 7, bias 5 instead of 1, 0). -/
def trainedMid : MidBlock :=
  { resnets := [{ norm1 := ⟨32, 512, 1 / 1000000, 7, 5⟩
                  conv1 := ⟨512, 512, (3, 3), (1, 1), (1, 1), 3, 2⟩
                  norm2 := ⟨32, 512, 1 / 1000000, 9, 4⟩
                  conv2 := ⟨512, 512, (3, 3), (1, 1), (1, 1), 6, 8⟩ }]
    attentions := [⟨11⟩] }

/-- Line 353: `new_output_channels = 12`. -/
def new_output_channels : ℕ := 12

/-- Lines 510-516: the replaced `vae.decoder.conv_out`, keeping
`in_channels`, `kernel_size`, `stride`, `padding` of the old layer and
mapping to `new_output_channels` outputs; `(w, b)` is the fresh random
initialization draw. -/
def replaceConvOut (old : Conv2dLayer) (w b : ℚ) : Conv2dLayer :=
  { in_channels := old.in_channels
    out_channels := new_output_channels
    kernel_size := old.kernel_size
    stride := old.stride
    padding := old.padding
    weight := w
    bias := b }

/-- Output spatial extent of a convolution along one axis
(dilation 1): `(n + 2*p - k) / s + 1`. -/
def convOutExtent (n k s p : ℕ) : ℕ :=
  (n + 2 * p - k) / s + 1

/-- Output shape `(channels, height, width)` of a `Conv2dLayer` on an
input of spatial size `(h, w)`. -/
def convOutputShape (c : Conv2dLayer) (h w : ℕ) : ℕ × ℕ × ℕ :=
  (c.out_channels,
   convOutExtent h c.kernel_size.1 c.stride.1 c.padding.1,
   convOutExtent w c.kernel_size.2 c.stride.2 c.padding.2)

/-- Zero draws for the fresh convolution layers, used for concrete
instantiations. -/
def zeroDraws : ℕ → ConvDraws := fun _ => (0, 0, 0, 0)

/-! ## Helper lemmas -/

instance : IsTotal String stepKeyLe :=
  ⟨fun a b => Nat.le_total (stepKey a) (stepKey b)⟩

instance : IsTrans String stepKeyLe :=
  ⟨fun _ _ _ h1 h2 => Nat.le_trans h1 h2⟩

theorem mem_of_getLastEq {α : Type} :
    ∀ (l : List α) (p : α), l.getLast? = some p → p ∈ l
  | [a], p, h => by
      simp only [List.getLast?_singleton, Option.some.injEq] at h
      simp [h]
  | a :: b :: l, p, h => by
      rw [List.getLast?_cons_cons] at h
      exact List.mem_cons_of_mem a (mem_of_getLastEq (b :: l) p h)

theorem getLastEq_of_ne_nil {α : Type} :
    ∀ l : List α, l ≠ [] → ∃ p, l.getLast? = some p
  | [], h => absurd rfl h
  | [a], _ => ⟨a, by simp⟩
  | a :: b :: l, _ => by
      rw [List.getLast?_cons_cons]
      exact getLastEq_of_ne_nil (b :: l) (by simp)

theorem sorted_stepKey_le_getLast :
    ∀ l : List String, List.Sorted stepKeyLe l →
      ∀ p, l.getLast? = some p → ∀ a ∈ l, stepKey a ≤ stepKey p := by
  intro l
  induction l with
  | nil => intro _ p hp; simp at hp
  | cons x xs ih =>
    intro hs p hp a ha
    rcases List.sorted_cons.mp hs with ⟨hx, hxs⟩
    cases xs with
    | nil =>
      simp only [List.getLast?_singleton, Option.some.injEq] at hp
      rcases List.mem_singleton.mp ha with rfl
      rw [hp]
    | cons y ys =>
      rw [List.getLast?_cons_cons] at hp
      rcases List.mem_cons.mp ha with rfl | hmem
      · exact hx p (mem_of_getLastEq _ p hp)
      · exact ih hxs p hp a hmem

theorem runStage_fst {α : Type} (f : α → α) (tag : StageTag) (mode : RunMode)
    (st : α × List (StageTag × RunMode)) :
    (runStage f tag mode st).1 = f st.1 := by
  cases mode <;> rfl

theorem runStage_snd {α : Type} (f : α → α) (tag : StageTag) (mode : RunMode)
    (st : α × List (StageTag × RunMode)) :
    (runStage f tag mode st).2 = st.2 ++ [(tag, mode)] := by
  cases mode <;> rfl

theorem runUpBlocksAux_fst {α : Type} :
    ∀ (ups : List (α → α)) (k : ℕ) (m : RunMode)
      (st : α × List (StageTag × RunMode)),
      ((List.enumFrom k ups).foldl
          (fun st p => runStage p.2 (.upBlock p.1) m st) st).1
        = ups.foldl (fun a f => f a) st.1 := by
  intro ups
  induction ups with
  | nil => intro k m st; rfl
  | cons f fs ih =>
    intro k m st
    simp only [List.enumFrom, List.foldl_cons]
    rw [ih (k + 1) m]
    rw [runStage_fst]

theorem runUpBlocks_fst {α : Type} (ups : List (α → α)) (m : RunMode)
    (st : α × List (StageTag × RunMode)) :
    (runUpBlocks ups m st).1 = ups.foldl (fun a f => f a) st.1 :=
  runUpBlocksAux_fst ups 0 m st

theorem runUpBlocksAux_snd {α : Type} :
    ∀ (ups : List (α → α)) (k : ℕ) (m : RunMode)
      (st : α × List (StageTag × RunMode)),
      ((List.enumFrom k ups).foldl
          (fun st p => runStage p.2 (.upBlock p.1) m st) st).2
        = st.2 ++ (List.range ups.length).map
            (fun i => (StageTag.upBlock (k + i), m)) := by
  intro ups
  induction ups with
  | nil => intro k m st; simp
  | cons f fs ih =>
    intro k m st
    simp only [List.enumFrom, List.foldl_cons]
    rw [ih (k + 1) m, runStage_snd]
    rw [List.length_cons, List.range_succ_eq_map]
    simp only [List.map_cons, List.map_map, List.append_assoc,
      List.singleton_append, Nat.add_zero]
    congr 1
    congr 1
    apply List.map_congr_left
    intro i _
    simp only [Function.comp_apply, Prod.mk.injEq, and_true]
    congr 1
    omega

theorem runUpBlocks_snd {α : Type} (ups : List (α → α)) (m : RunMode)
    (st : α × List (StageTag × RunMode)) :
    (runUpBlocks ups m st).2
      = st.2 ++ (List.range ups.length).map (fun i => (StageTag.upBlock i, m)) := by
  have h := runUpBlocksAux_snd ups 0 m st
  simpa using h

/-! ## Claim theorems -/

/-- C1: evaluating the training loop's target construction.  On a
one-image batch of shape `[1, 3, 1, 5]` the TargetStack is the
12-channel concatenation of tiles 2..5 in order, as the claim states;
but on a batch of shape `[2, 3, 1, 5]` (any `batch_size ≥ 2`, including
the script's default of 16) `squeeze(0)` is a no-op and the
concatenation runs along the batch axis, producing shape
`[1, 8, 3, 1, 1]` instead of the claimed `[2, 12, 1, 1]`. -/
theorem c1_target_stack_eval :
    targetOf batchOne = expectedTargetOne ∧
    tshape (targetOf batchOne) = [1, 12, 1, 1] ∧
    tshape (targetOf (constT [2, 3, 1, 5] 0)) = [1, 8, 3, 1, 1] ∧
    tshape (targetOf (constT [2, 3, 1, 5] 0)) ≠ [2, 12, 1, 1] :=
  ⟨rfl, rfl, rfl, by decide⟩

/-- C2: with the default scales, the step loss equals
`mse + (1/10) * perceptual + (1/1000000) * kl`, where `perceptual` is
the unweighted mean of the four LPIPS scores, each computed on one
disjoint 3-channel group of the prediction against the same group of
the target (channels `[0:3]`, `[3:6]`, `[6:9]`, `[9:12]`; never across
groups). -/
theorem c2_loss_composition (lp : Image → Image → ℚ) (pred target : Image)
    (kl : ℚ) :
    train_step_loss lp pred target kl lpips_scale_default kl_scale_default
      = mse_loss pred target
        + (1 / 10) * ((lp (pred.take 3) (target.take 3)
            + lp ((pred.drop 3).take 3) ((target.drop 3).take 3)
            + lp ((pred.drop 6).take 3) ((target.drop 6).take 3)
            + lp ((pred.drop 9).take 3) ((target.drop 9).take 3)) / 4)
        + (1 / 1000000) * kl := by
  show mse_loss pred target
      + lpips_scale_default * lpips_loss lp pred target
      + kl_scale_default * kl = _
  have h4 : List.range 4 = [0, 1, 2, 3] := by decide
  simp only [lpips_loss, total_lpips_loss, h4, List.foldl_cons, List.foldl_nil,
    channelGroup, lpips_scale_default, kl_scale_default]
  norm_num

/-- C3: for the same decoder parameters and the same input, the forward
value of the recompute-on-backward branch (training with gradient
checkpointing) equals the forward value of the direct branch —
`torch.utils.checkpoint.checkpoint` returns the wrapped module's value,
and both branches apply the same stages in the same order. -/
theorem c3_recompute_equals_direct {α : Type} (d : DecoderFuns α) (s : α) :
    (new_forward d true true s).1 = (new_forward d false false s).1 := by
  simp [new_forward, postProcess, runStage_fst, runUpBlocks_fst]

/-- C4 counterexample: in recompute mode the two attention-free narrowed
clones are NOT executed under recompute-on-backward — on a concrete
decoder the trace of the checkpointing branch records
`copied_mid_block3` and `copied_mid_block4` as direct calls and never as
checkpointed calls, contradicting the claim of uniform application. -/
theorem c4_narrowed_clones_not_checkpointed :
    (StageTag.copied3, RunMode.checkpointed) ∉
        (new_forward trivialDecoder true true 0).2 ∧
    (StageTag.copied4, RunMode.checkpointed) ∉
        (new_forward trivialDecoder true true 0).2 ∧
    (StageTag.copied3, RunMode.direct) ∈ (new_forward trivialDecoder true true 0).2 ∧
    (StageTag.copied4, RunMode.direct) ∈ (new_forward trivialDecoder true true 0).2 := by
  decide

/-- C4 amended: when recompute-on-backward is selected, the original
bottleneck stage, both attention-bearing clones and every upsampling
stage run under recompute, while the two attention-free narrowed clones
(and the input projection, casts and output stages) run directly. -/
theorem c4_recompute_trace {α : Type} (d : DecoderFuns α) (s : α) :
    (new_forward d true true s).2
      = [(.convIn, .direct), (.midBlock, .checkpointed),
         (.copied1, .checkpointed), (.copied2, .checkpointed),
         (.castUp, .direct)]
        ++ (List.range d.up_blocks.length).map
            (fun i => (StageTag.upBlock i, RunMode.checkpointed))
        ++ [(.copied3, .direct), (.copied4, .direct), (.castUp, .direct),
            (.convNormOut, .direct), (.convAct, .direct), (.convOut, .direct)] := by
  simp [new_forward, postProcess, runStage_snd, runUpBlocks_snd]

/-- C5 counterexample: the first clone's parameters are deep-copied from
the source stage, not freshly initialized — on a trained mid block whose
GroupNorm carries weight 7, bias 5, the clone carries the same values,
while a freshly constructed `nn.GroupNorm` of that configuration starts
at weight 1, bias 0. -/
theorem c5_clone_params_are_copied :
    (decoderSurgery trainedMid zeroDraws zeroDraws).copied_mid_block1.resnets.map
        ResnetBlock.norm1
      = trainedMid.resnets.map ResnetBlock.norm1 ∧
    (decoderSurgery trainedMid zeroDraws zeroDraws).copied_mid_block1.resnets.map
        ResnetBlock.norm1
      ≠ [nnGroupNorm 32 512 (1 / 1000000)] := by
  refine ⟨rfl, ?_⟩
  intro hEq
  have hlist : ([⟨32, 512, 1 / 1000000, 7, 5⟩] : List GroupNormLayer)
      = [nnGroupNorm 32 512 (1 / 1000000)] := hEq
  have h71 : (7 : ℚ) = 1 :=
    congrArg (fun l => (l.headD (nnGroupNorm 32 512 0)).weight) hlist
  norm_num at h71

/-- C5 amended: all four clones are deep copies of the bottleneck stage
with independent storage; the first two keep the source's parameter
values unchanged, and in the narrowed clones only the resnets'
normalization and convolution layers are replaced by freshly initialized
128-wide layers (GroupNorm at its default initialization weight 1,
bias 0; convolutions at fresh random draws) with the attentions
removed. -/
theorem c5_surgery_characterization (src : MidBlock)
    (draws3 draws4 : ℕ → ConvDraws) :
    (decoderSurgery src draws3 draws4).copied_mid_block1 = src ∧
    (decoderSurgery src draws3 draws4).copied_mid_block2 = src ∧
    (decoderSurgery src draws3 draws4).copied_mid_block3.attentions = [] ∧
    (decoderSurgery src draws3 draws4).copied_mid_block4.attentions = [] ∧
    (decoderSurgery src draws3 draws4).copied_mid_block3.resnets
      = src.resnets.enum.map (fun p => renormResnet 128 (draws3 p.1) p.2) ∧
    (decoderSurgery src draws3 draws4).copied_mid_block4.resnets
      = src.resnets.enum.map (fun p => renormResnet 128 (draws4 p.1) p.2) ∧
    (∀ (dr : ConvDraws) (rb : ResnetBlock),
      (renormResnet 128 dr rb).norm1 = nnGroupNorm 32 128 (1 / 1000000) ∧
      (renormResnet 128 dr rb).norm1.weight = 1 ∧
      (renormResnet 128 dr rb).norm1.bias = 0 ∧
      (renormResnet 128 dr rb).conv1.in_channels = 128 ∧
      (renormResnet 128 dr rb).conv1.out_channels = 128 ∧
      (renormResnet 128 dr rb).conv1.kernel_size = (3, 3)) :=
  ⟨rfl, rfl, rfl, rfl, rfl, rfl, fun _ _ => ⟨rfl, rfl, rfl, rfl, rfl, rfl⟩⟩

/-- C6: every decode call applies the stages in the fixed order — input
projection, original bottleneck stage, both attention-bearing clones,
dtype cast, every upsampling stage in turn, both attention-free narrowed
clones, dtype cast, output normalization, activation, final projection —
in both execution modes; and the final projection installed by the
surgery maps to 12 output channels. -/
theorem c6_decode_stage_order {α : Type} (d : DecoderFuns α)
    (training gradient_checkpointing : Bool) (s : α) :
    ((new_forward d training gradient_checkpointing s).2).map Prod.fst
      = specStageOrder d.up_blocks.length ∧
    (∀ (old : Conv2dLayer) (w b : ℚ),
      (replaceConvOut old w b).out_channels = 12) := by
  refine ⟨?_, fun _ _ _ => rfl⟩
  cases training <;> cases gradient_checkpointing <;>
    simp [new_forward, postProcess, runStage_snd, runUpBlocks_snd,
      specStageOrder, List.map_append, List.map_map, Function.comp]

/-- C7: the replaced final projection has exactly 12 output channels and
keeps the kernel size, stride and padding (and input channel count) of
the layer it replaced, so on any input spatial size it produces a
12-channel output of the same spatial extent the original layer would
have produced. -/
theorem c7_conv_out_12_channels (old : Conv2dLayer) (w b : ℚ) :
    (replaceConvOut old w b).out_channels = 12 ∧
    (replaceConvOut old w b).in_channels = old.in_channels ∧
    (replaceConvOut old w b).kernel_size = old.kernel_size ∧
    (replaceConvOut old w b).stride = old.stride ∧
    (replaceConvOut old w b).padding = old.padding ∧
    ∀ hgt wid : ℕ,
      convOutputShape (replaceConvOut old w b) hgt wid
        = (12, (convOutputShape old hgt wid).2.1,
           (convOutputShape old hgt wid).2.2) :=
  ⟨rfl, rfl, rfl, rfl, rfl, fun _ _ => rfl⟩

/-- C8 counterexample: with an explicit (non-"latest") resume path and
no checkpoint present anywhere (empty output-directory listing), the
program still attempts to load
`os.path.join(output_dir, basename(path))` instead of warning and
starting fresh — the `path is None` fallback is unreachable for explicit
paths. -/
theorem c8_explicit_missing_checkpoint_not_graceful :
    resumeAction (some "/gone/checkpoint-7") "out" [] = .load "out/checkpoint-7" ∧
    resumeAction (some "/gone/checkpoint-7") "out" [] ≠ .warnFresh := by
  decide

/-- C8 amended: only for the `"latest"` tag with no `checkpoint*`
directory present does the program log the warning and start fresh from
step 0; an explicit checkpoint path is always attempted regardless of
existence. -/
theorem c8_latest_missing_starts_fresh (out : String) (listing : List String)
    (spe : ℕ)
    (h : listing.filter (fun d => pyStartsWith "checkpoint" d) = []) :
    resumeAction (some "latest") out listing = .warnFresh ∧
    resumedGlobalStep (some "latest") listing = 0 ∧
    resumedFirstEpoch (some "latest") listing spe = 0 := by
  have hres : resolvePath "latest" listing = none := by
    unfold resolvePath
    rw [if_neg (by simp)]
    show (sortByStepKey (listing.filter fun d => pyStartsWith "checkpoint" d)).getLast?
        = none
    rw [h]
    rfl
  refine ⟨?_, ?_, ?_⟩ <;>
    simp [resumeAction, resumedGlobalStep, resumedFirstEpoch, hres]

/-- C8 witness: concrete instantiation of the amended statement. -/
theorem c8_latest_missing_starts_fresh_witness :
    (["logs", "runs"].filter (fun d => pyStartsWith "checkpoint" d) = []) ∧
    (resumeAction (some "latest") "out" ["logs", "runs"] = .warnFresh ∧
     resumedGlobalStep (some "latest") ["logs", "runs"] = 0 ∧
     resumedFirstEpoch (some "latest") ["logs", "runs"] 7 = 0) :=
  ⟨by decide, c8_latest_missing_starts_fresh "out" ["logs", "runs"] 7 (by decide)⟩

/-- C9: resolving `"latest"` selects, among the `checkpoint*` entries of
the output directory, one that is present and whose parsed step is
maximal (Python's stable ascending sort followed by `[-1]`), sets the
resumed global step to that step, and recomputes the starting epoch as
`floor(step / steps_per_epoch)`; in particular `checkpoint-250` is
selected among `checkpoint-100`, `checkpoint-250`, `checkpoint-50`. -/
theorem c9_latest_selects_max_step (listing : List String) (spe : ℕ)
    (h : listing.filter (fun d => pyStartsWith "checkpoint" d) ≠ []) :
    (∃ p, resolvePath "latest" listing = some p ∧ p ∈ listing ∧
       pyStartsWith "checkpoint" p = true ∧
       (∀ d ∈ listing, pyStartsWith "checkpoint" d = true →
          stepKey d ≤ stepKey p) ∧
       resumedGlobalStep (some "latest") listing = stepKey p ∧
       resumedFirstEpoch (some "latest") listing spe = stepKey p / spe) ∧
    resolvePath "latest" ["checkpoint-100", "checkpoint-250", "checkpoint-50"]
      = some "checkpoint-250" := by
  refine ⟨?_, by decide⟩
  have hperm : List.Perm
      (sortByStepKey (listing.filter (fun d => pyStartsWith "checkpoint" d)))
      (listing.filter (fun d => pyStartsWith "checkpoint" d)) :=
    List.perm_insertionSort stepKeyLe _
  have hs_ne : sortByStepKey (listing.filter (fun d => pyStartsWith "checkpoint" d))
      ≠ [] := by
    intro hnil
    rw [hnil] at hperm
    exact h (List.Perm.eq_nil hperm.symm)
  obtain ⟨p, hp⟩ := getLastEq_of_ne_nil _ hs_ne
  have hres : resolvePath "latest" listing = some p := by
    unfold resolvePath
    rw [if_neg (by simp)]
    exact hp
  have hpmem : p ∈ listing.filter (fun d => pyStartsWith "checkpoint" d) :=
    hperm.subset (mem_of_getLastEq _ p hp)
  obtain ⟨hp_listing, hp_pre⟩ := List.mem_filter.mp hpmem
  refine ⟨p, hres, hp_listing, hp_pre, ?_, ?_, ?_⟩
  · intro d hd hdpre
    have hdin : d ∈ sortByStepKey
        (listing.filter (fun d => pyStartsWith "checkpoint" d)) :=
      hperm.symm.subset (List.mem_filter.mpr ⟨hd, hdpre⟩)
    exact sorted_stepKey_le_getLast _
      (List.sorted_insertionSort stepKeyLe _) p hp d hdin
  · simp [resumedGlobalStep, hres]
  · simp [resumedFirstEpoch, resumedGlobalStep, hres]

/-- C9 witness: the claim's concrete example. -/
theorem c9_latest_selects_max_step_witness :
    (["checkpoint-100", "checkpoint-250", "checkpoint-50"].filter
        (fun d => pyStartsWith "checkpoint" d) ≠ []) ∧
    ((∃ p, resolvePath "latest"
          ["checkpoint-100", "checkpoint-250", "checkpoint-50"] = some p ∧
        p ∈ ["checkpoint-100", "checkpoint-250", "checkpoint-50"] ∧
        pyStartsWith "checkpoint" p = true ∧
        (∀ d ∈ ["checkpoint-100", "checkpoint-250", "checkpoint-50"],
          pyStartsWith "checkpoint" d = true → stepKey d ≤ stepKey p) ∧
        resumedGlobalStep (some "latest")
          ["checkpoint-100", "checkpoint-250", "checkpoint-50"] = stepKey p ∧
        resumedFirstEpoch (some "latest")
          ["checkpoint-100", "checkpoint-250", "checkpoint-50"] 100
          = stepKey p / 100) ∧
     resolvePath "latest" ["checkpoint-100", "checkpoint-250", "checkpoint-50"]
       = some "checkpoint-250") :=
  ⟨by decide,
   c9_latest_selects_max_step
     ["checkpoint-100", "checkpoint-250", "checkpoint-50"] 100 (by decide)⟩

/-- C10: for every explicit (non-"latest", non-empty) resume argument
the program loads `os.path.join(output_dir, os.path.basename(arg))` —
only the final path component is used, joined under the output
directory; concretely, the absolute path `/elsewhere/checkpoint-700` is
loaded as `out/checkpoint-700`, never from its given location. -/
theorem c10_explicit_resume_basename_joined (out r : String)
    (listing : List String) (h1 : r ≠ "latest") (h2 : r ≠ "") :
    resumeAction (some r) out listing = .load (pyJoin out (pyBasename r)) ∧
    pyJoin "out" (pyBasename "/elsewhere/checkpoint-700")
      = "out/checkpoint-700" := by
  refine ⟨?_, by decide⟩
  have hres : resolvePath r listing = some (pyBasename r) := by
    unfold resolvePath
    rw [if_pos h1]
  simp only [resumeAction]
  rw [if_neg h2, hres]

/-- C10 witness: concrete instantiation with an absolute outside path
and a populated output directory. -/
theorem c10_explicit_resume_basename_joined_witness :
    ("/elsewhere/checkpoint-700" ≠ "latest") ∧
    ("/elsewhere/checkpoint-700" ≠ "") ∧
    (resumeAction (some "/elsewhere/checkpoint-700") "out" ["checkpoint-900"]
        = .load (pyJoin "out" (pyBasename "/elsewhere/checkpoint-700")) ∧
     pyJoin "out" (pyBasename "/elsewhere/checkpoint-700")
       = "out/checkpoint-700") :=
  ⟨by decide, by decide,
   c10_explicit_resume_basename_joined "out" "/elsewhere/checkpoint-700"
     ["checkpoint-900"] (by decide) (by decide)⟩

end ReflectanceFusion
